import Mathlib

/-!
Shallow embedding of `youtube_dl/extractor/npo.py` (the NPO extractor of
youtube-dl).  The network is modelled as an explicit environment of oracles
(one per endpoint); every network interaction performed by the extractor is
additionally recorded in a call trace, so that properties about *which*
identifier each call uses can be stated.  Fallible code returns
`Except ExtractError`; Python runtime errors that the extractor does not
catch (IndexError, KeyError, AttributeError, RegexNotFoundError) are modelled
as dedicated error values.

Framework helpers that live outside this repository (in youtube-dl's
`utils`/`common` modules) and whose behaviour the claims depend on are
modelled from the spec and marked as such in their doc comments; the ones the
claims do not depend on (HLS/F4M manifest expansion, live-title decoration)
are supplied by the environment.
-/

set_option linter.unusedVariables false

deriving instance DecidableEq for Except

/-- Result of one network fetch: parsed payload, an HTTP error (status code
plus the `errorstring` field obtained by best-effort JSON-parsing the error
body: `none` when the body does not parse as JSON or has no such field), or a
non-HTTP failure. -/
inductive FetchResult (α : Type) where
  | ok (a : α)
  | httpErr (code : Nat) (errorstring : Option String)
  | err
deriving Repr, DecidableEq

/-- Errors with which a resolution can abort.  `expected` is
`ExtractorError(..., expected=True)`; `http`/`plain` are propagated download
failures; the `py*` values are uncaught Python runtime errors;
`regexNotFound` is `_search_regex` failing without a default. -/
inductive ExtractError where
  | expected (msg : String)
  | http (code : Nat) (errorstring : Option String)
  | plain
  | pyIndexError
  | pyKeyError
  | pyAttrError
  | regexNotFound
deriving Repr, DecidableEq

/-- Python truthiness of an optional string (`None` and `""` are falsy). -/
def truthyOptStr : Option String → Bool
  | none => false
  | some s => !(s == "")

/-- Python truthiness of `d.get(k, 0)` for a numeric field: absent or zero is
falsy. -/
def truthyInt : Option Int → Bool
  | none => false
  | some n => !(n == 0)

/-- Python `a or b` for an optional string `a`: keep `a` when truthy. -/
def pyOrStr : Option String → String → String
  | none, d => d
  | some s, d => if s = "" then d else s

/-- Python `'%s' % v` for an optional string (Python prints `None`). -/
def pyStr : Option String → String
  | none => "None"
  | some s => s

/-- ASCII lower-casing of one character (Python `str.lower` restricted to the
ASCII protocol names this extractor compares against). -/
def lowerChar (c : Char) : Char :=
  if 'A' ≤ c ∧ c ≤ 'Z' then Char.ofNat (c.toNat + 32) else c

/-- Python `s.lower()` on an ASCII string. -/
def strLower (s : String) : String := String.mk (s.toList.map lowerChar)

/-- Does `needle` occur as a contiguous substring of the character list? -/
def hasSubstrAux (needle : List Char) : List Char → Bool
  | [] => needle.isEmpty
  | c :: rest => needle.isPrefixOf (c :: rest) || hasSubstrAux needle rest

/-- Python `needle in hay` for strings. -/
def hasSubstr (needle hay : String) : Bool :=
  hasSubstrAux needle.toList hay.toList

/-- Try to match the regex `video/ida/([^/]+)` at the head of the character
list: the literal prefix `video/ida/` followed by at least one non-`/`
character; the capture is the maximal run of non-`/` characters. -/
def idaCaptureAt (s : List Char) : Option String :=
  if ("video/ida/".toList).isPrefixOf s then
    let cap := (s.drop 10).takeWhile (fun c => c ≠ '/')
    if cap.isEmpty then none else some (String.mk cap)
  else none

/-- `re.search` of `video/ida/([^/]+)`: first position (left to right) where
the pattern matches. -/
def idaSearchAux : List Char → Option String
  | [] => none
  | c :: rest =>
    match idaCaptureAt (c :: rest) with
    | some r => some r
    | none => idaSearchAux rest

/-- `self._search_regex(r'video/ida/([^/]+)', item_url, 'format id',
default=None)`: the capture of the first match, or `None`. -/
def idaSearch (s : String) : Option String := idaSearchAux s.toList

/-- Modelled from the spec: the framework helper `qualities` turns the fixed
ordinal table into a ranking function — the rank of an identifier is its
index in the table (earlier names rank lower), and `-1` when the identifier
is missing or not in the table. -/
def qualitiesRank (ids : List String) (qid : Option String) : Int :=
  match qid with
  | none => -1
  | some s =>
    match ids.findIdx? (fun t => t == s) with
    | some i => Int.ofNat i
    | none => -1

/-- The fixed quality table of `NPOIE._get_info`. -/
def qTable : List String :=
  ["adaptive", "wmv_sb", "h264_sb", "wmv_bb", "h264_bb", "wvc1_std", "h264_std"]

/-- One format descriptor (a Python dict in the source); absent keys are
`none`. -/
structure FormatDesc where
  url : String
  format_id : Option String := none
  quality : Option Int := none
  ext : Option String := none
  preference : Option Int := none
deriving Repr, DecidableEq

/-- Modelled from the spec: the sort key used by `_sort_formats` — quality
descending, ties broken by preference; missing values rank lowest. -/
def fmtKey (f : FormatDesc) : Int × Int :=
  (f.quality.getD (-1000000), f.preference.getD (-1000000))

/-- Stable insertion of a format in front of the first strictly-smaller-keyed
element. -/
def insertFmt (f : FormatDesc) : List FormatDesc → List FormatDesc
  | [] => [f]
  | g :: gs =>
    if (fmtKey f).1 > (fmtKey g).1 ∨
        ((fmtKey f).1 = (fmtKey g).1 ∧ (fmtKey f).2 > (fmtKey g).2) then
      f :: g :: gs
    else
      g :: insertFmt f gs

/-- Modelled from the spec: `_sort_formats` — a deterministic stable sort of
the collected descriptors by quality descending (preference as tie-break,
original order for full ties). -/
def sortFormats : List FormatDesc → List FormatDesc
  | [] => []
  | f :: fs => insertFmt f (sortFormats fs)

/-- One entry of the metadata's legacy `streams` list. -/
structure StreamEntry where
  url : Option String := none
  kwaliteit : Option Int := none
  formaat : Option String := none
deriving Repr, DecidableEq

/-- The metadata document of `http://e.omroep.nl/metadata/<id>` (after the
JSONP callback is stripped), restricted to the fields `_get_info` reads.
`images`, when present, is the list of the `url` values of the image dicts
(`none` for a JSON null); distinguishing an absent `images` key from an empty
list matters to the thumbnail computation.  `gidsdatum`/`tijdsduur` are kept
raw: their parsing (`unified_strdate`, `parse_duration`) is framework code
outside this repository and outside the claims. -/
structure Metadata where
  titel : String
  prid : Option String := none
  aflevering_titel : Option String := none
  pubopties : Option (List String) := none
  streams : Option (List StreamEntry) := none
  tt888 : Option String := none
  info : Option String := none
  images : Option (List (Option String)) := none
  gidsdatum : Option String := none
  tijdsduur : Option String := none
deriving Repr, DecidableEq

/-- One item of `items[0]` from the format-listing endpoint
`http://ida.omroep.nl/app.php/<id>?adaptive=yes&token=...`. -/
structure IdaItem where
  url : Option String := none
  label : Option String := none
deriving Repr, DecidableEq

/-- The per-item stream-info JSON fetched from `item_url + '&type=json'`. -/
structure StreamInfo where
  error_code : Option Int := none
  errorcode : Option Int := none
  url : Option String := none
  family : Option String := none
deriving Repr, DecidableEq

/-- An ASX playlist document: `entryRefs` lists, in document order, the
`href` attributes of the `Ref` elements under the `ENTRY` children (the
elements `asx.find('./ENTRY/Ref')` iterates over); `none` stands for a `Ref`
without an `href` attribute. -/
structure AsxDoc where
  entryRefs : List (Option String) := []
deriving Repr, DecidableEq

/-- One subtitle entry (`{'ext': ..., 'url': ...}`). -/
structure SubEntry where
  ext : String
  url : String
deriving Repr, DecidableEq

/-- The record returned by `NPOIE._get_info`.  `gidsdatum`/`tijdsduur` are
the raw inputs of the out-of-repository date/duration parsers. -/
structure MediaRecord where
  id : String
  title : String
  description : Option String
  thumbnail : Option String
  gidsdatum : Option String
  tijdsduur : Option String
  formats : List FormatDesc
  subtitles : List (String × List SubEntry)
deriving Repr, DecidableEq

/-- The network calls `NPOIE._get_info` can make; each constructor records
the identifier the call is parameterized by.  `asxFetch`'s boolean records
whether the `fix_xml_ampersands` transform was applied to the body before
parsing. -/
inductive Call where
  | metadataFetch (id : String)
  | tokenFetch (id : String)
  | formatsFetch (id : String) (token : String)
  | streamFetch (url : String) (id : String)
  | m3u8Extract (url : String) (id : String)
  | asxFetch (url : String) (id : String) (fixAmpersands : Bool)
deriving Repr, DecidableEq

/-- The identifier a call is parameterized by. -/
def Call.argId : Call → String
  | metadataFetch i => i
  | tokenFetch i => i
  | formatsFetch i _ => i
  | streamFetch _ i => i
  | m3u8Extract _ i => i
  | asxFetch _ i _ => i

def Call.isMetadataFetch : Call → Bool
  | metadataFetch _ => true
  | _ => false

/-- The network environment of the on-demand resolver: one oracle per
endpoint.  `formats` returns the `items` value of the format-listing JSON (a
list of item lists, of which the code takes element 0); `m3u8` is the
framework's `_extract_m3u8_formats` with `fatal=False` (a failed expansion
contributes no formats). -/
structure Env where
  metadata : String → FetchResult Metadata
  token : String → FetchResult String
  formats : String → String → FetchResult (List (List IdaItem))
  streamInfo : String → FetchResult StreamInfo
  asx : String → FetchResult AsxDoc
  m3u8 : String → List FormatDesc

/-- The title merge of `_get_info`: append `': ' + sub_title` only when the
sub-title is truthy and differs from the primary title. -/
def mergeTitle (titel : String) (sub : Option String) : String :=
  match sub with
  | none => titel
  | some st => if st ≠ "" ∧ st ≠ titel then titel ++ ": " ++ st else titel

/-- `metadata.get('images', [{'url': None}])[-1]['url']`: absent key yields
`None`; an empty list raises IndexError; otherwise the last element's url. -/
def thumbnailOf : Option (List (Option String)) → Except ExtractError (Option String)
  | none => Except.ok none
  | some l =>
    match l.getLast? with
    | none => Except.error ExtractError.pyIndexError
    | some u => Except.ok u

/-- The body of the adaptive-format loop of `_get_info` for one item of
`items`.  Returns the calls made and either the formats contributed by the
item or the error aborting the whole resolution.  `num` is the positional
index from `enumerate(items)`; the source uses it only inside the progress
note. -/
def processIdaItem (env : Env) (vid : String) (num : Nat) (item : IdaItem) :
    List Call × Except ExtractError (List FormatDesc) :=
  match item.url with
  | none => ([], Except.ok [])
  | some iu =>
    if iu = "" then ([], Except.ok [])
    else
      let format_id := idaSearch iu
      let fetchUrl := iu ++ "&type=json"
      match env.streamInfo fetchUrl with
      | FetchResult.httpErr code es =>
        ([Call.streamFetch fetchUrl vid],
          if code = 404 then
            match es with
            | some e =>
              if e ≠ "" then Except.error (ExtractError.expected e)
              else Except.error (ExtractError.http code es)
            | none => Except.error (ExtractError.http code es)
          else Except.error (ExtractError.http code es))
      | FetchResult.err => ([Call.streamFetch fetchUrl vid], Except.error ExtractError.plain)
      | FetchResult.ok si =>
        if truthyInt si.error_code || truthyInt si.errorcode then
          ([Call.streamFetch fetchUrl vid], Except.ok [])
        else
          match si.url with
          | none => ([Call.streamFetch fetchUrl vid], Except.ok [])
          | some vu =>
            if vu = "" then ([Call.streamFetch fetchUrl vid], Except.ok [])
            else if si.family = some "adaptive" then
              ([Call.streamFetch fetchUrl vid, Call.m3u8Extract vu vid],
                Except.ok (env.m3u8 vu))
            else
              ([Call.streamFetch fetchUrl vid],
                Except.ok [{ url := vu, format_id := format_id,
                             quality := some (qualitiesRank qTable format_id) }])

/-- The adaptive-format loop over the items of `items[0]`, threading the
positional index. -/
def processIdaItems (env : Env) (vid : String) : Nat → List IdaItem →
    List Call × Except ExtractError (List FormatDesc)
  | _, [] => ([], Except.ok [])
  | num, item :: rest =>
    match processIdaItem env vid num item with
    | (cs, Except.error e) => (cs, Except.error e)
    | (cs, Except.ok fs) =>
      match processIdaItems env vid (num + 1) rest with
      | (cs2, r2) => (cs ++ cs2, r2.map (fun fs2 => fs ++ fs2))

/-- The body of the legacy `streams` loop of `_get_info` for one entry. -/
def processStream (env : Env) (vid : String) (stream : StreamEntry) :
    List Call × Except ExtractError (List FormatDesc) :=
  match stream.url with
  | none => ([], Except.ok [])
  | some su =>
    if su = "" then ([], Except.ok [])
    else if hasSubstr ".asf" su = false then
      ([], Except.ok [{ url := su, quality := stream.kwaliteit }])
    else
      match env.asx su with
      | FetchResult.httpErr c e =>
        ([Call.asxFetch su vid true], Except.error (ExtractError.http c e))
      | FetchResult.err =>
        ([Call.asxFetch su vid true], Except.error ExtractError.plain)
      | FetchResult.ok doc =>
        match doc.entryRefs.head? with
        | none => ([Call.asxFetch su vid true], Except.ok [])
        | some none => ([Call.asxFetch su vid true], Except.ok [])
        | some (some vu) =>
          if vu = "" then ([Call.asxFetch su vid true], Except.ok [])
          else
            ([Call.asxFetch su vid true],
              Except.ok [{ url := vu, ext := some (stream.formaat.getD "asf"),
                           quality := stream.kwaliteit }])

/-- The legacy `streams` loop. -/
def processStreams (env : Env) (vid : String) : List StreamEntry →
    List Call × Except ExtractError (List FormatDesc)
  | [] => ([], Except.ok [])
  | stream :: rest =>
    match processStream env vid stream with
    | (cs, Except.error e) => (cs, Except.error e)
    | (cs, Except.ok fs) =>
      match processStreams env vid rest with
      | (cs2, r2) => (cs ++ cs2, r2.map (fun fs2 => fs ++ fs2))

/-- The `if pubopties:` block of `_get_info`: query the format-listing
endpoint (taking `['items'][0]`, so an empty `items` raises IndexError) and
run the adaptive-format loop. -/
def adaptivePart (env : Env) (vid : String) (token : String) (metadata : Metadata) :
    List Call × Except ExtractError (List FormatDesc) :=
  match metadata.pubopties with
  | none => ([], Except.ok [])
  | some pub =>
    if pub.isEmpty then ([], Except.ok [])
    else
      match env.formats vid token with
      | FetchResult.httpErr c e =>
        ([Call.formatsFetch vid token], Except.error (ExtractError.http c e))
      | FetchResult.err =>
        ([Call.formatsFetch vid token], Except.error ExtractError.plain)
      | FetchResult.ok itemss =>
        match itemss with
        | [] => ([Call.formatsFetch vid token], Except.error ExtractError.pyIndexError)
        | items :: _ =>
          match processIdaItems env vid 0 items with
          | (cs, r) => (Call.formatsFetch vid token :: cs, r)

/-- The `if streams:` block of `_get_info`. -/
def streamsPart (env : Env) (vid : String) (metadata : Metadata) :
    List Call × Except ExtractError (List FormatDesc) :=
  match metadata.streams with
  | none => ([], Except.ok [])
  | some ss =>
    if ss.isEmpty then ([], Except.ok [])
    else processStreams env vid ss

/-- `NPOIE._get_info`: fetch metadata, substitute the `prid` override once,
merge the title, fetch a token, run the adaptive and legacy loops, sort the
formats, build the thumbnail and subtitles and return the record.  The first
component is the trace of network calls made (in order). -/
def NPOIE.getInfo (env : Env) (video_id : String) :
    List Call × Except ExtractError MediaRecord :=
  match env.metadata video_id with
  | FetchResult.httpErr c e =>
    ([Call.metadataFetch video_id], Except.error (ExtractError.http c e))
  | FetchResult.err =>
    ([Call.metadataFetch video_id], Except.error ExtractError.plain)
  | FetchResult.ok metadata =>
    let vid := pyOrStr metadata.prid video_id
    let title := mergeTitle metadata.titel metadata.aflevering_titel
    match env.token vid with
    | FetchResult.httpErr c e =>
      ([Call.metadataFetch video_id, Call.tokenFetch vid],
        Except.error (ExtractError.http c e))
    | FetchResult.err =>
      ([Call.metadataFetch video_id, Call.tokenFetch vid],
        Except.error ExtractError.plain)
    | FetchResult.ok token =>
      match adaptivePart env vid token metadata with
      | (csA, Except.error e) =>
        (Call.metadataFetch video_id :: Call.tokenFetch vid :: csA, Except.error e)
      | (csA, Except.ok fA) =>
        match streamsPart env vid metadata with
        | (csS, Except.error e) =>
          (Call.metadataFetch video_id :: Call.tokenFetch vid :: (csA ++ csS),
            Except.error e)
        | (csS, Except.ok fS) =>
          match thumbnailOf metadata.images with
          | Except.error e =>
            (Call.metadataFetch video_id :: Call.tokenFetch vid :: (csA ++ csS),
              Except.error e)
          | Except.ok thumb =>
            (Call.metadataFetch video_id :: Call.tokenFetch vid :: (csA ++ csS),
              Except.ok
                { id := vid, title := title, description := metadata.info,
                  thumbnail := thumb,
                  gidsdatum := metadata.gidsdatum, tijdsduur := metadata.tijdsduur,
                  formats := sortFormats (fA ++ fS),
                  subtitles :=
                    if metadata.tt888 = some "ja" then
                      [("nl", [{ ext := "vtt",
                                 url := "http://tt888.omroep.nl/tt888/" ++ vid }])]
                    else [] })

/-- One entry of the live metadata's `streams` list. -/
structure LiveStream where
  type : Option String := none
  url : Option String := none
deriving Repr, DecidableEq

/-- The JSON of the live streaming-auth endpoint
`http://ida.omroep.nl/aapi/?stream=...&token=...&type=jsonp`; `stream` is
read by direct indexing (`stream_info['stream']`), so its absence raises
KeyError. -/
structure LiveStreamInfo where
  error_code : Option Int := none
  errorcode : Option Int := none
  stream : Option String := none
deriving Repr, DecidableEq

/-- The metadata document of a live channel, restricted to the fields
`NPOLiveIE._real_extract` reads; `info` is read by direct indexing. -/
structure LiveMetadata where
  titel : String
  info : Option String := none
  images : Option (List (Option String)) := none
  streams : Option (List LiveStream) := none
deriving Repr, DecidableEq

/-- The network calls `NPOLiveIE._real_extract` can make. -/
inductive LiveCall where
  | webpageFetch (displayId : String)
  | liveMetadataFetch (id : String)
  | liveTokenFetch (id : String)
  | aapiFetch (url : String)
  | streamUrlFetch (url : String)
  | f4mExtract (url : String)
  | m3u8LiveExtract (url : String)
deriving Repr, DecidableEq

/-- The network environment of the live resolver.  `streamUrl` is the
`fatal=False` JSONP download of the final stream URL (`none` when it fails or
returns a falsy value); `f4m`/`m3u8` are the framework manifest expanders;
`liveTitle` is the framework's `_live_title` (base title decorated with the
current timestamp), supplied externally because it reads the clock. -/
structure LiveEnv where
  webpage : String → FetchResult String
  metadata : String → FetchResult LiveMetadata
  token : String → FetchResult String
  aapi : String → FetchResult LiveStreamInfo
  streamUrl : String → Option String
  f4m : String → List FormatDesc
  m3u8 : String → List FormatDesc
  liveTitle : String → String

/-- The record returned by `NPOLiveIE._real_extract`. -/
structure LiveRecord where
  id : String
  display_id : String
  title : String
  description : String
  thumbnail : Option String
  formats : List FormatDesc
  is_live : Bool
deriving Repr, DecidableEq

/-- Try to match the regex `data-prid="([^"]+)"` at the head of the character
list. -/
def pridCaptureAt (s : List Char) : Option String :=
  if ("data-prid=\"".toList).isPrefixOf s then
    let cap := (s.drop 11).takeWhile (fun c => c ≠ '"')
    let afterCap := (s.drop 11).drop cap.length
    if cap.isEmpty ∨ afterCap.head? ≠ some '"' then none
    else some (String.mk cap)
  else none

/-- `re.search` of `data-prid="([^"]+)"` over the webpage. -/
def pridSearchAux : List Char → Option String
  | [] => none
  | c :: rest =>
    match pridCaptureAt (c :: rest) with
    | some r => some r
    | none => pridSearchAux rest

def pridSearch (page : String) : Option String := pridSearchAux page.toList

/-- The streaming-auth URL built in the live loop (`'%s'` printing of the
possibly-missing stream url). -/
def liveAapiUrl (stream : LiveStream) (token : String) : String :=
  "http://ida.omroep.nl/aapi/?stream=" ++ pyStr stream.url ++ "&token=" ++ token
    ++ "&type=jsonp"

/-- The body of the live stream loop for one entry: `.lower()` on a missing
`type` raises AttributeError; `ss`/`ms` entries are skipped before any
network call; error-flagged entries are skipped; `hds` expansions get
preference `-1` on every sub-format; unknown protocols are appended raw with
preference `-10`. -/
def processLiveStream (env : LiveEnv) (token : String) (stream : LiveStream) :
    List LiveCall × Except ExtractError (List FormatDesc) :=
  match stream.type with
  | none => ([], Except.error ExtractError.pyAttrError)
  | some t =>
    let st := strLower t
    if st = "ss" ∨ st = "ms" then ([], Except.ok [])
    else
      let aUrl := liveAapiUrl stream token
      match env.aapi aUrl with
      | FetchResult.httpErr c e =>
        ([LiveCall.aapiFetch aUrl], Except.error (ExtractError.http c e))
      | FetchResult.err =>
        ([LiveCall.aapiFetch aUrl], Except.error ExtractError.plain)
      | FetchResult.ok si =>
        if truthyInt si.error_code || truthyInt si.errorcode then
          ([LiveCall.aapiFetch aUrl], Except.ok [])
        else
          match si.stream with
          | none => ([LiveCall.aapiFetch aUrl], Except.error ExtractError.pyKeyError)
          | some sUrl =>
            match env.streamUrl sUrl with
            | none =>
              ([LiveCall.aapiFetch aUrl, LiveCall.streamUrlFetch sUrl], Except.ok [])
            | some su =>
              if su = "" then
                ([LiveCall.aapiFetch aUrl, LiveCall.streamUrlFetch sUrl], Except.ok [])
              else if st = "hds" then
                ([LiveCall.aapiFetch aUrl, LiveCall.streamUrlFetch sUrl,
                   LiveCall.f4mExtract su],
                  Except.ok ((env.f4m su).map (fun f => { f with preference := some (-1) })))
              else if st = "hls" then
                ([LiveCall.aapiFetch aUrl, LiveCall.streamUrlFetch sUrl,
                   LiveCall.m3u8LiveExtract su],
                  Except.ok (env.m3u8 su))
              else
                ([LiveCall.aapiFetch aUrl, LiveCall.streamUrlFetch sUrl],
                  Except.ok [{ url := su, preference := some (-10) }])

/-- The live stream loop. -/
def processLiveStreams (env : LiveEnv) (token : String) : List LiveStream →
    List LiveCall × Except ExtractError (List FormatDesc)
  | [] => ([], Except.ok [])
  | stream :: rest =>
    match processLiveStream env token stream with
    | (cs, Except.error e) => (cs, Except.error e)
    | (cs, Except.ok fs) =>
      match processLiveStreams env token rest with
      | (cs2, r2) => (cs ++ cs2, r2.map (fun fs2 => fs ++ fs2))

/-- The `if streams:` block of `_real_extract`. -/
def liveStreamsPart (env : LiveEnv) (token : String) (md : LiveMetadata) :
    List LiveCall × Except ExtractError (List FormatDesc) :=
  match md.streams with
  | none => ([], Except.ok [])
  | some ss =>
    if ss.isEmpty then ([], Except.ok [])
    else processLiveStreams env token ss

/-- `NPOLiveIE._real_extract`, starting from the display id matched out of
the page URL: fetch the channel page, extract the live id from the
`data-prid` attribute, fetch metadata for the live id but the token for the
display id, run the stream loop, and build the live record (reading
`metadata['info']` by direct indexing, then the thumbnail). -/
def NPOLiveIE.realExtract (env : LiveEnv) (display_id : String) :
    List LiveCall × Except ExtractError LiveRecord :=
  match env.webpage display_id with
  | FetchResult.httpErr c e =>
    ([LiveCall.webpageFetch display_id], Except.error (ExtractError.http c e))
  | FetchResult.err =>
    ([LiveCall.webpageFetch display_id], Except.error ExtractError.plain)
  | FetchResult.ok page =>
    match pridSearch page with
    | none => ([LiveCall.webpageFetch display_id], Except.error ExtractError.regexNotFound)
    | some live_id =>
      match env.metadata live_id with
      | FetchResult.httpErr c e =>
        ([LiveCall.webpageFetch display_id, LiveCall.liveMetadataFetch live_id],
          Except.error (ExtractError.http c e))
      | FetchResult.err =>
        ([LiveCall.webpageFetch display_id, LiveCall.liveMetadataFetch live_id],
          Except.error ExtractError.plain)
      | FetchResult.ok md =>
        match env.token display_id with
        | FetchResult.httpErr c e =>
          ([LiveCall.webpageFetch display_id, LiveCall.liveMetadataFetch live_id,
             LiveCall.liveTokenFetch display_id],
            Except.error (ExtractError.http c e))
        | FetchResult.err =>
          ([LiveCall.webpageFetch display_id, LiveCall.liveMetadataFetch live_id,
             LiveCall.liveTokenFetch display_id],
            Except.error ExtractError.plain)
        | FetchResult.ok token =>
          let pre := [LiveCall.webpageFetch display_id,
                      LiveCall.liveMetadataFetch live_id,
                      LiveCall.liveTokenFetch display_id]
          match liveStreamsPart env token md with
          | (cs, Except.error e) => (pre ++ cs, Except.error e)
          | (cs, Except.ok fmts) =>
            match md.info with
            | none => (pre ++ cs, Except.error ExtractError.pyKeyError)
            | some desc =>
              match thumbnailOf md.images with
              | Except.error e => (pre ++ cs, Except.error e)
              | Except.ok thumb =>
                (pre ++ cs,
                  Except.ok
                    { id := live_id, display_id := display_id,
                      title := env.liveTitle md.titel, description := desc,
                      thumbnail := thumb, formats := sortFormats fmts,
                      is_live := true })


/-! Concrete environments and records used by the witness and counterexample
theorems below. -/

def mdC1 : Metadata :=
  { titel := "Vandaag de Dag", prid := some "POW_00996502",
    pubopties := some ["adaptive"],
    streams := some [{ url := some "http://cdn.omroep.nl/progressive.mp4",
                       kwaliteit := some 2 }],
    tt888 := some "ja" }

def envC1 : Env :=
  { metadata := fun i =>
      if i = "POMS_WNL_853698" then FetchResult.ok mdC1
      else if i = "POW_00996502" then
        FetchResult.ok { titel := "chain bait", prid := some "POW_CHAINED" }
      else FetchResult.err,
    token := fun _ => FetchResult.ok "tok123",
    formats := fun _ _ => FetchResult.ok
      [[{ url := some "http://odi.omroep.nl/video/ida/h264_std/xyz?foo=1" }]],
    streamInfo := fun u =>
      if u = "http://odi.omroep.nl/video/ida/h264_std/xyz?foo=1&type=json" then
        FetchResult.ok { url := some "http://media.omroep.nl/h264_std.mp4" }
      else FetchResult.err,
    asx := fun _ => FetchResult.err,
    m3u8 := fun _ => [] }

def envC2 : Env :=
  { metadata := fun _ => FetchResult.err,
    token := fun _ => FetchResult.err,
    formats := fun _ _ => FetchResult.err,
    streamInfo := fun u =>
      if u = "http://odi.omroep.nl/video/item?x=1&type=json" then
        FetchResult.ok { url := some "http://cdn.example/stream.mp4" }
      else FetchResult.err,
    asx := fun _ => FetchResult.err,
    m3u8 := fun _ => [] }

def itemC2 : IdaItem := { url := some "http://odi.omroep.nl/video/item?x=1" }

def envC2w : Env :=
  { metadata := fun _ => FetchResult.err,
    token := fun _ => FetchResult.err,
    formats := fun _ _ => FetchResult.err,
    streamInfo := fun u =>
      if u = "http://odi.omroep.nl/video/ida/h264_std/x?a=1&type=json" then
        FetchResult.ok { url := some "http://cdn.example/f.mp4" }
      else FetchResult.err,
    asx := fun _ => FetchResult.err,
    m3u8 := fun _ => [] }

def itemC2w : IdaItem := { url := some "http://odi.omroep.nl/video/ida/h264_std/x?a=1" }

def siC2w : StreamInfo := { url := some "http://cdn.example/f.mp4" }

def docC3 : AsxDoc := { entryRefs := [some "mms://media.omroep.nl/real.wmv"] }

def envC3 : Env :=
  { metadata := fun _ => FetchResult.err,
    token := fun _ => FetchResult.err,
    formats := fun _ _ => FetchResult.err,
    streamInfo := fun _ => FetchResult.err,
    asx := fun u =>
      if u = "http://cdn.omroep.nl/media.asf" then FetchResult.ok docC3
      else FetchResult.err,
    m3u8 := fun _ => [] }

def streamC3 : StreamEntry :=
  { url := some "http://cdn.omroep.nl/media.asf", kwaliteit := some 1,
    formaat := some "wmv" }

def envC4 : Env :=
  { metadata := fun _ => FetchResult.err,
    token := fun _ => FetchResult.err,
    formats := fun _ _ => FetchResult.err,
    streamInfo := fun u =>
      if u = "http://odi.omroep.nl/i1&type=json" then
        FetchResult.httpErr 404 (some "Dit programma is niet meer beschikbaar")
      else FetchResult.err,
    asx := fun _ => FetchResult.err,
    m3u8 := fun _ => [] }

def itemC4 : IdaItem := { url := some "http://odi.omroep.nl/i1" }

def siC5 : StreamInfo := { error_code := some 99 }

def envC5 : Env :=
  { metadata := fun _ => FetchResult.err,
    token := fun _ => FetchResult.err,
    formats := fun _ _ => FetchResult.err,
    streamInfo := fun u =>
      if u = "http://odi.omroep.nl/i5&type=json" then FetchResult.ok siC5
      else FetchResult.err,
    asx := fun _ => FetchResult.err,
    m3u8 := fun _ => [] }

def itemC5 : IdaItem := { url := some "http://odi.omroep.nl/i5" }

def mdC6 : Metadata :=
  { titel := "Tegenlicht", aflevering_titel := some "De toekomst komt uit Afrika" }

def envC6 : Env :=
  { metadata := fun _ => FetchResult.ok mdC6,
    token := fun _ => FetchResult.ok "tok",
    formats := fun _ _ => FetchResult.err,
    streamInfo := fun _ => FetchResult.err,
    asx := fun _ => FetchResult.err,
    m3u8 := fun _ => [] }

def recC6 : MediaRecord :=
  { id := "VPWON_1169289", title := "Tegenlicht: De toekomst komt uit Afrika",
    description := none, thumbnail := none, gidsdatum := none, tijdsduur := none,
    formats := [], subtitles := [] }

def lenvC7 : LiveEnv :=
  { webpage := fun _ => FetchResult.err,
    metadata := fun _ => FetchResult.err,
    token := fun _ => FetchResult.err,
    aapi := fun _ => FetchResult.err,
    streamUrl := fun _ => none,
    f4m := fun _ => [],
    m3u8 := fun _ => [],
    liveTitle := fun t => t }

def sC7 : LiveStream := { type := some "MS", url := some "http://l.omroep.nl/s" }

def mdC8 : Metadata := { titel := "Nieuwsuur", tt888 := some "ja" }

def envC8 : Env :=
  { metadata := fun _ => FetchResult.ok mdC8,
    token := fun _ => FetchResult.ok "tok",
    formats := fun _ _ => FetchResult.err,
    streamInfo := fun _ => FetchResult.err,
    asx := fun _ => FetchResult.err,
    m3u8 := fun _ => [] }

def recC8 : MediaRecord :=
  { id := "VPWON_1220719", title := "Nieuwsuur",
    description := none, thumbnail := none, gidsdatum := none, tijdsduur := none,
    formats := [],
    subtitles := [("nl", [{ ext := "vtt",
                            url := "http://tt888.omroep.nl/tt888/VPWON_1220719" }])] }

def mdC9 : Metadata :=
  { titel := "T",
    images := some [none, some "http://images.omroep.nl/last.jpg"] }

def envC9 : Env :=
  { metadata := fun _ => FetchResult.ok mdC9,
    token := fun _ => FetchResult.ok "tok",
    formats := fun _ _ => FetchResult.err,
    streamInfo := fun _ => FetchResult.err,
    asx := fun _ => FetchResult.err,
    m3u8 := fun _ => [] }

def recC9 : MediaRecord :=
  { id := "VID", title := "T",
    description := none, thumbnail := some "http://images.omroep.nl/last.jpg",
    gidsdatum := none, tijdsduur := none, formats := [], subtitles := [] }

def mdC9b : Metadata := { titel := "T", images := some [] }

def envC9b : Env :=
  { metadata := fun _ => FetchResult.ok mdC9b,
    token := fun _ => FetchResult.ok "tok",
    formats := fun _ _ => FetchResult.err,
    streamInfo := fun _ => FetchResult.err,
    asx := fun _ => FetchResult.err,
    m3u8 := fun _ => [] }

def sC10 : LiveStream := { url := some "http://l.omroep.nl/s10" }

def mdC10 : LiveMetadata :=
  { titel := "Nederland 1", info := some "Livestream",
    streams := some [sC10] }

def pageC10 : String := "<div class=\"player\" data-prid=\"LI_NEDERLAND1_136692\"></div>"

def lenvC10 : LiveEnv :=
  { webpage := fun d => if d = "npo-1" then FetchResult.ok pageC10 else FetchResult.err,
    metadata := fun i =>
      if i = "LI_NEDERLAND1_136692" then FetchResult.ok mdC10 else FetchResult.err,
    token := fun _ => FetchResult.ok "tok",
    aapi := fun _ => FetchResult.err,
    streamUrl := fun _ => none,
    f4m := fun _ => [],
    m3u8 := fun _ => [],
    liveTitle := fun t => t }

theorem processIdaItem_calls (env : Env) (vid : String) (num : Nat) (item : IdaItem) :
    ∀ c ∈ (processIdaItem env vid num item).1,
      c.isMetadataFetch = false ∧ c.argId = vid := by
  intro c hc
  cases hu : item.url with
  | none => simp [processIdaItem, hu] at hc
  | some iu =>
    by_cases hiu : iu = ""
    · simp [processIdaItem, hu, hiu] at hc
    · cases hsi : env.streamInfo (iu ++ "&type=json") with
      | httpErr code es =>
        simp [processIdaItem, hu, hiu, hsi] at hc
        subst hc
        exact ⟨rfl, rfl⟩
      | err =>
        simp [processIdaItem, hu, hiu, hsi] at hc
        subst hc
        exact ⟨rfl, rfl⟩
      | ok si =>
        by_cases herr : truthyInt si.error_code = true ∨ truthyInt si.errorcode = true
        · simp [processIdaItem, hu, hiu, hsi, herr] at hc
          subst hc
          exact ⟨rfl, rfl⟩
        · cases hvu : si.url with
          | none =>
            simp [processIdaItem, hu, hiu, hsi, herr, hvu] at hc
            subst hc
            exact ⟨rfl, rfl⟩
          | some vu =>
            by_cases hvue : vu = ""
            · simp [processIdaItem, hu, hiu, hsi, herr, hvu, hvue] at hc
              subst hc
              exact ⟨rfl, rfl⟩
            · by_cases hfam : si.family = some "adaptive"
              · simp [processIdaItem, hu, hiu, hsi, herr, hvu, hvue, hfam] at hc
                rcases hc with rfl | rfl
                · exact ⟨rfl, rfl⟩
                · exact ⟨rfl, rfl⟩
              · simp [processIdaItem, hu, hiu, hsi, herr, hvu, hvue, hfam] at hc
                subst hc
                exact ⟨rfl, rfl⟩

theorem processIdaItems_calls (env : Env) (vid : String) :
    ∀ (items : List IdaItem) (num : Nat) (c : Call),
      c ∈ (processIdaItems env vid num items).1 →
      c.isMetadataFetch = false ∧ c.argId = vid := by
  intro items
  induction items with
  | nil => intro num c hc; simp [processIdaItems] at hc
  | cons item rest ih =>
    intro num c hc
    unfold processIdaItems at hc
    rcases h1 : processIdaItem env vid num item with ⟨cs, r⟩
    rw [h1] at hc
    cases r with
    | error e =>
      simp at hc
      exact processIdaItem_calls env vid num item c (by rw [h1]; simpa using hc)
    | ok fs =>
      rcases h2 : processIdaItems env vid (num + 1) rest with ⟨cs2, r2⟩
      rw [h2] at hc
      simp at hc
      rcases hc with hc | hc
      · exact processIdaItem_calls env vid num item c (by rw [h1]; simpa using hc)
      · exact ih (num + 1) c (by rw [h2]; simpa using hc)

theorem processStream_calls (env : Env) (vid : String) (stream : StreamEntry) :
    ∀ c ∈ (processStream env vid stream).1,
      c.isMetadataFetch = false ∧ c.argId = vid := by
  intro c hc
  cases hu : stream.url with
  | none => simp [processStream, hu] at hc
  | some su =>
    by_cases hsu : su = ""
    · simp [processStream, hu, hsu] at hc
    · by_cases hasf : hasSubstr ".asf" su = false
      · simp [processStream, hu, hsu, hasf] at hc
      · cases hax : env.asx su with
        | httpErr code es =>
          simp [processStream, hu, hsu, hasf, hax] at hc
          subst hc
          exact ⟨rfl, rfl⟩
        | err =>
          simp [processStream, hu, hsu, hasf, hax] at hc
          subst hc
          exact ⟨rfl, rfl⟩
        | ok doc =>
          cases hh : doc.entryRefs.head? with
          | none =>
            simp [processStream, hu, hsu, hasf, hax, hh] at hc
            subst hc
            exact ⟨rfl, rfl⟩
          | some href =>
            cases href with
            | none =>
              simp [processStream, hu, hsu, hasf, hax, hh] at hc
              subst hc
              exact ⟨rfl, rfl⟩
            | some vu =>
              by_cases hvu : vu = ""
              · simp [processStream, hu, hsu, hasf, hax, hh, hvu] at hc
                subst hc
                exact ⟨rfl, rfl⟩
              · simp [processStream, hu, hsu, hasf, hax, hh, hvu] at hc
                subst hc
                exact ⟨rfl, rfl⟩

theorem processStreams_calls (env : Env) (vid : String) :
    ∀ (ss : List StreamEntry) (c : Call),
      c ∈ (processStreams env vid ss).1 →
      c.isMetadataFetch = false ∧ c.argId = vid := by
  intro ss
  induction ss with
  | nil => intro c hc; simp [processStreams] at hc
  | cons stream rest ih =>
    intro c hc
    unfold processStreams at hc
    rcases h1 : processStream env vid stream with ⟨cs, r⟩
    rw [h1] at hc
    cases r with
    | error e =>
      simp at hc
      exact processStream_calls env vid stream c (by rw [h1]; simpa using hc)
    | ok fs =>
      rcases h2 : processStreams env vid rest with ⟨cs2, r2⟩
      rw [h2] at hc
      simp at hc
      rcases hc with hc | hc
      · exact processStream_calls env vid stream c (by rw [h1]; simpa using hc)
      · exact ih c (by rw [h2]; simpa using hc)

theorem adaptivePart_calls (env : Env) (vid token : String) (md : Metadata) :
    ∀ c ∈ (adaptivePart env vid token md).1,
      c.isMetadataFetch = false ∧ c.argId = vid := by
  intro c hc
  cases hp : md.pubopties with
  | none => simp [adaptivePart, hp] at hc
  | some pub =>
    by_cases hpe : pub.isEmpty
    · simp [adaptivePart, hp, hpe] at hc
    · cases hf : env.formats vid token with
      | httpErr code es =>
        simp [adaptivePart, hp, hpe, hf] at hc
        subst hc
        exact ⟨rfl, rfl⟩
      | err =>
        simp [adaptivePart, hp, hpe, hf] at hc
        subst hc
        exact ⟨rfl, rfl⟩
      | ok itemss =>
        cases itemss with
        | nil =>
          simp [adaptivePart, hp, hpe, hf] at hc
          subst hc
          exact ⟨rfl, rfl⟩
        | cons items restss =>
          rcases h1 : processIdaItems env vid 0 items with ⟨cs, r⟩
          simp [adaptivePart, hp, hpe, hf, h1] at hc
          rcases hc with rfl | hc
          · exact ⟨rfl, rfl⟩
          · exact processIdaItems_calls env vid items 0 c (by rw [h1]; simpa using hc)

theorem streamsPart_calls (env : Env) (vid : String) (md : Metadata) :
    ∀ c ∈ (streamsPart env vid md).1,
      c.isMetadataFetch = false ∧ c.argId = vid := by
  intro c hc
  cases hs : md.streams with
  | none => simp [streamsPart, hs] at hc
  | some ss =>
    by_cases hse : ss.isEmpty
    · simp [streamsPart, hs, hse] at hc
    · simp [streamsPart, hs, hse] at hc
      exact processStreams_calls env vid ss c hc

theorem getInfo_ok_shape (env : Env) (v : String) (md : Metadata)
    (tr : List Call) (r : MediaRecord)
    (hm : env.metadata v = FetchResult.ok md)
    (h : NPOIE.getInfo env v = (tr, Except.ok r)) :
    r.id = pyOrStr md.prid v ∧
    r.title = mergeTitle md.titel md.aflevering_titel ∧
    r.description = md.info ∧
    r.gidsdatum = md.gidsdatum ∧
    r.tijdsduur = md.tijdsduur ∧
    thumbnailOf md.images = Except.ok r.thumbnail ∧
    r.subtitles =
      (if md.tt888 = some "ja" then
         [("nl", [{ ext := "vtt",
                    url := "http://tt888.omroep.nl/tt888/" ++ pyOrStr md.prid v }])]
       else []) := by
  unfold NPOIE.getInfo at h
  rw [hm] at h
  dsimp only at h
  cases ht : env.token (pyOrStr md.prid v) with
  | httpErr c e => rw [ht] at h; simp at h
  | err => rw [ht] at h; simp at h
  | ok tok =>
    rw [ht] at h
    dsimp only at h
    rcases hA : adaptivePart env (pyOrStr md.prid v) tok md with ⟨csA, rA⟩
    rw [hA] at h
    cases rA with
    | error e => simp at h
    | ok fA =>
      rcases hS : streamsPart env (pyOrStr md.prid v) md with ⟨csS, rS⟩
      rw [hS] at h
      cases rS with
      | error e => simp at h
      | ok fS =>
        cases hth : thumbnailOf md.images with
        | error e => rw [hth] at h; simp at h
        | ok thumb =>
          rw [hth] at h
          simp only [Prod.mk.injEq] at h
          obtain ⟨htr, hr⟩ := h
          injection hr with hr
          subst hr
          exact ⟨rfl, rfl, rfl, rfl, rfl, rfl, rfl⟩

theorem getInfo_trace_shape (env : Env) (v : String) (md : Metadata)
    (hm : env.metadata v = FetchResult.ok md) :
    ∃ cs, (NPOIE.getInfo env v).1 = Call.metadataFetch v :: cs ∧
      ∀ c ∈ cs, c.isMetadataFetch = false ∧ c.argId = pyOrStr md.prid v := by
  unfold NPOIE.getInfo
  rw [hm]
  dsimp only
  cases ht : env.token (pyOrStr md.prid v) with
  | httpErr c e =>
    refine ⟨[Call.tokenFetch (pyOrStr md.prid v)], rfl, ?_⟩
    intro c hc
    simp at hc
    subst hc
    exact ⟨rfl, rfl⟩
  | err =>
    refine ⟨[Call.tokenFetch (pyOrStr md.prid v)], rfl, ?_⟩
    intro c hc
    simp at hc
    subst hc
    exact ⟨rfl, rfl⟩
  | ok tok =>
    dsimp only
    rcases hA : adaptivePart env (pyOrStr md.prid v) tok md with ⟨csA, rA⟩
    have hAc : ∀ c ∈ csA, c.isMetadataFetch = false ∧ c.argId = pyOrStr md.prid v := by
      intro c hc
      exact adaptivePart_calls env (pyOrStr md.prid v) tok md c (by rw [hA]; simpa using hc)
    cases rA with
    | error e =>
      refine ⟨Call.tokenFetch (pyOrStr md.prid v) :: csA, rfl, ?_⟩
      intro c hc
      rcases List.mem_cons.mp hc with rfl | hc
      · exact ⟨rfl, rfl⟩
      · exact hAc c hc
    | ok fA =>
      rcases hS : streamsPart env (pyOrStr md.prid v) md with ⟨csS, rS⟩
      have hSc : ∀ c ∈ csS, c.isMetadataFetch = false ∧ c.argId = pyOrStr md.prid v := by
        intro c hc
        exact streamsPart_calls env (pyOrStr md.prid v) md c (by rw [hS]; simpa using hc)
      have hABc : ∀ c ∈ Call.tokenFetch (pyOrStr md.prid v) :: (csA ++ csS),
          c.isMetadataFetch = false ∧ c.argId = pyOrStr md.prid v := by
        intro c hc
        rcases List.mem_cons.mp hc with rfl | hc
        · exact ⟨rfl, rfl⟩
        · rcases List.mem_append.mp hc with hc | hc
          · exact hAc c hc
          · exact hSc c hc
      cases rS with
      | error e =>
        exact ⟨Call.tokenFetch (pyOrStr md.prid v) :: (csA ++ csS), rfl, hABc⟩
      | ok fS =>
        cases hth : thumbnailOf md.images with
        | error e =>
          exact ⟨Call.tokenFetch (pyOrStr md.prid v) :: (csA ++ csS), rfl, hABc⟩
        | ok thumb =>
          exact ⟨Call.tokenFetch (pyOrStr md.prid v) :: (csA ++ csS), rfl, hABc⟩

/-- Claim C1: when the fetched metadata carries a truthy `prid`, the returned
record's id equals the prid, every subsequent network call (token fetch,
format listing, per-item stream fetches, ASX fetches, manifest expansions)
and the subtitle URL use the prid instead of the original input identifier,
and the substitution is applied exactly once: metadata is fetched exactly
once, for the original identifier, so the indirection is never followed as a
chain. -/
theorem C1_prid_substitution (env : Env) (v p : String) (md : Metadata)
    (hm : env.metadata v = FetchResult.ok md)
    (hp : md.prid = some p) (hpne : p ≠ "") :
    ((NPOIE.getInfo env v).1.filter (fun c => c.isMetadataFetch) =
        [Call.metadataFetch v]) ∧
    (∀ c ∈ (NPOIE.getInfo env v).1, c.isMetadataFetch = false → c.argId = p) ∧
    (∀ tr r, NPOIE.getInfo env v = (tr, Except.ok r) →
      r.id = p ∧
      (md.tt888 = some "ja" →
        r.subtitles =
          [("nl", [{ ext := "vtt",
                     url := "http://tt888.omroep.nl/tt888/" ++ p }])])) := by
  have hvid : pyOrStr md.prid v = p := by simp [pyOrStr, hp, hpne]
  obtain ⟨cs, htr, hcs⟩ := getInfo_trace_shape env v md hm
  refine ⟨?_, ?_, ?_⟩
  · rw [htr, List.filter_cons]
    have hnil : cs.filter (fun c => c.isMetadataFetch) = [] := by
      rw [List.filter_eq_nil_iff]
      intro c hc
      simp [(hcs c hc).1]
    rw [hnil]
    rfl
  · intro c hc hnm
    rw [htr] at hc
    rcases List.mem_cons.mp hc with rfl | hc
    · simp [Call.isMetadataFetch] at hnm
    · rw [← hvid]
      exact (hcs c hc).2
  · intro tr r hrun
    obtain ⟨hid, _, _, _, _, _, hsub⟩ := getInfo_ok_shape env v md tr r hm hrun
    refine ⟨by rw [hid, hvid], ?_⟩
    intro htt
    rw [hsub, if_pos htt, hvid]

theorem getInfo_parts (env : Env) (v : String) (md : Metadata) (tok : String)
    (hm : env.metadata v = FetchResult.ok md)
    (htok : env.token (pyOrStr md.prid v) = FetchResult.ok tok) :
    (∀ csA e, adaptivePart env (pyOrStr md.prid v) tok md = (csA, Except.error e) →
      (NPOIE.getInfo env v).2 = Except.error e) ∧
    (∀ csA fA csS e,
      adaptivePart env (pyOrStr md.prid v) tok md = (csA, Except.ok fA) →
      streamsPart env (pyOrStr md.prid v) md = (csS, Except.error e) →
      (NPOIE.getInfo env v).2 = Except.error e) ∧
    (∀ csA fA csS fS e,
      adaptivePart env (pyOrStr md.prid v) tok md = (csA, Except.ok fA) →
      streamsPart env (pyOrStr md.prid v) md = (csS, Except.ok fS) →
      thumbnailOf md.images = Except.error e →
      (NPOIE.getInfo env v).2 = Except.error e) := by
  refine ⟨?_, ?_, ?_⟩
  · intro csA e hA
    unfold NPOIE.getInfo
    rw [hm]
    dsimp only
    rw [htok]
    dsimp only
    rw [hA]
  · intro csA fA csS e hA hS
    unfold NPOIE.getInfo
    rw [hm]
    dsimp only
    rw [htok]
    dsimp only
    rw [hA, hS]
  · intro csA fA csS fS e hA hS hth
    unfold NPOIE.getInfo
    rw [hm]
    dsimp only
    rw [htok]
    dsimp only
    rw [hA, hS, hth]

theorem realExtract_ok_shape (env : LiveEnv) (d page live_id : String)
    (md : LiveMetadata) (tr : List LiveCall) (r : LiveRecord)
    (hw : env.webpage d = FetchResult.ok page)
    (hp : pridSearch page = some live_id)
    (hm : env.metadata live_id = FetchResult.ok md)
    (h : NPOLiveIE.realExtract env d = (tr, Except.ok r)) :
    r.id = live_id ∧ r.display_id = d ∧ r.title = env.liveTitle md.titel ∧
    md.info = some r.description ∧
    thumbnailOf md.images = Except.ok r.thumbnail ∧ r.is_live = true := by
  unfold NPOLiveIE.realExtract at h
  rw [hw] at h
  dsimp only at h
  rw [hp] at h
  dsimp only at h
  rw [hm] at h
  dsimp only at h
  cases ht : env.token d with
  | httpErr c e => rw [ht] at h; simp at h
  | err => rw [ht] at h; simp at h
  | ok tok =>
    rw [ht] at h
    dsimp only at h
    rcases hstep : liveStreamsPart env tok md with ⟨cs, rs⟩
    rw [hstep] at h
    cases rs with
    | error e => simp at h
    | ok fmts =>
      cases hinfo : md.info with
      | none => rw [hinfo] at h; simp at h
      | some desc =>
        rw [hinfo] at h
        cases hth : thumbnailOf md.images with
        | error e => rw [hth] at h; simp at h
        | ok thumb =>
          rw [hth] at h
          simp only [Prod.mk.injEq] at h
          obtain ⟨htr, hr⟩ := h
          injection hr with hr
          subst hr
          exact ⟨rfl, rfl, rfl, rfl, rfl, rfl⟩

theorem realExtract_streams_error (env : LiveEnv) (d page live_id : String)
    (md : LiveMetadata) (tok : String) (cs : List LiveCall) (e : ExtractError)
    (hw : env.webpage d = FetchResult.ok page)
    (hp : pridSearch page = some live_id)
    (hm : env.metadata live_id = FetchResult.ok md)
    (ht : env.token d = FetchResult.ok tok)
    (hstep : liveStreamsPart env tok md = (cs, Except.error e)) :
    (NPOLiveIE.realExtract env d).2 = Except.error e := by
  unfold NPOLiveIE.realExtract
  rw [hw]
  dsimp only
  rw [hp]
  dsimp only
  rw [hm]
  dsimp only
  rw [ht]
  dsimp only
  rw [hstep]

/-- Claim C7: a live stream entry whose lower-cased protocol type is `ss` or `ms`
contributes no descriptor and triggers no network call, and the loop goes on
with the remaining entries unchanged. -/
theorem C7_smooth_streaming_skipped (env : LiveEnv) (token : String)
    (s : LiveStream) (t : String) (hty : s.type = some t)
    (h : strLower t = "ss" ∨ strLower t = "ms") :
    processLiveStream env token s = ([], Except.ok []) ∧
    ∀ rest, processLiveStreams env token (s :: rest) =
      processLiveStreams env token rest := by
  have h1 : processLiveStream env token s = ([], Except.ok []) := by
    unfold processLiveStream
    rw [hty]
    dsimp only
    rw [if_pos h]
  refine ⟨h1, ?_⟩
  intro rest
  rw [processLiveStreams, h1]
  rcases h2 : processLiveStreams env token rest with ⟨cs2, r2⟩
  cases r2 with
  | error e => rfl
  | ok fs => rfl

/-- Claim C10: a live stream entry with no `type` field makes the resolver raise
(`.lower()` on `None`), and the whole live resolution aborts with that error
instead of skipping the entry. -/
theorem C10_missing_type_aborts (env : LiveEnv) (s : LiveStream)
    (hs : s.type = none) :
    (∀ token, processLiveStream env token s =
      ([], Except.error ExtractError.pyAttrError)) ∧
    (∀ token rest, (processLiveStreams env token (s :: rest)).2 =
      Except.error ExtractError.pyAttrError) ∧
    (∀ d page live_id md tok rest,
      env.webpage d = FetchResult.ok page →
      pridSearch page = some live_id →
      env.metadata live_id = FetchResult.ok md →
      env.token d = FetchResult.ok tok →
      md.streams = some (s :: rest) →
      (NPOLiveIE.realExtract env d).2 = Except.error ExtractError.pyAttrError) := by
  have h1 : ∀ token, processLiveStream env token s =
      ([], Except.error ExtractError.pyAttrError) := by
    intro token
    unfold processLiveStream
    rw [hs]
  have h2 : ∀ token rest, processLiveStreams env token (s :: rest) =
      ([], Except.error ExtractError.pyAttrError) := by
    intro token rest
    unfold processLiveStreams
    rw [h1]
  refine ⟨h1, fun token rest => by rw [h2], ?_⟩
  intro d page live_id md tok rest hw hp hm ht hstr
  refine realExtract_streams_error env d page live_id md tok []
    ExtractError.pyAttrError hw hp hm ht ?_
  unfold liveStreamsPart
  rw [hstr]
  dsimp only
  rw [if_neg (by simp)]
  exact h2 tok rest

/-- Claim C5: an item whose stream info carries a truthy `error_code` or
`errorcode` contributes no format descriptor, and the loop continues with the
remaining items; the same dual-field check appears in the on-demand
adaptive-format loop and in the live stream loop. -/
theorem C5_error_code_skip (env : Env) (vid : String) (num : Nat)
    (item : IdaItem) (iu : String) (si : StreamInfo)
    (hu : item.url = some iu) (hne : iu ≠ "")
    (hsi : env.streamInfo (iu ++ "&type=json") = FetchResult.ok si)
    (herr : truthyInt si.error_code = true ∨ truthyInt si.errorcode = true) :
    (processIdaItem env vid num item).2 = Except.ok [] ∧
    (∀ rest, (processIdaItems env vid num (item :: rest)).2 =
      (processIdaItems env vid (num + 1) rest).2) ∧
    (∀ (lenv : LiveEnv) (token : String) (ls : LiveStream) (t : String)
        (lsi : LiveStreamInfo),
      ls.type = some t →
      ¬ (strLower t = "ss" ∨ strLower t = "ms") →
      lenv.aapi (liveAapiUrl ls token) = FetchResult.ok lsi →
      (truthyInt lsi.error_code = true ∨ truthyInt lsi.errorcode = true) →
      (processLiveStream lenv token ls).2 = Except.ok [] ∧
      (∀ lrest, (processLiveStreams lenv token (ls :: lrest)).2 =
        (processLiveStreams lenv token lrest).2)) := by
  have h1 : processIdaItem env vid num item =
      ([Call.streamFetch (iu ++ "&type=json") vid], Except.ok []) := by
    unfold processIdaItem
    rw [hu]
    dsimp only
    rw [if_neg hne, hsi]
    dsimp only
    rw [if_pos (show (truthyInt si.error_code || truthyInt si.errorcode) = true by
      rcases herr with h | h <;> simp [h])]
  refine ⟨by rw [h1], ?_, ?_⟩
  · intro rest
    rw [processIdaItems, h1]
    rcases h2 : processIdaItems env vid (num + 1) rest with ⟨cs2, r2⟩
    cases r2 with
    | error e => rfl
    | ok fs => rfl
  · intro lenv token ls t lsi hty hnss haapi herr2
    have hl : processLiveStream lenv token ls =
        ([LiveCall.aapiFetch (liveAapiUrl ls token)], Except.ok []) := by
      unfold processLiveStream
      rw [hty]
      dsimp only
      rw [if_neg hnss, haapi]
      dsimp only
      rw [if_pos (show (truthyInt lsi.error_code || truthyInt lsi.errorcode) = true by
      rcases herr2 with h | h <;> simp [h])]
    refine ⟨by rw [hl], ?_⟩
    intro lrest
    rw [processLiveStreams, hl]
    rcases h3 : processLiveStreams lenv token lrest with ⟨cs2, r2⟩
    cases r2 with
    | error e => rfl
    | ok fs => rfl

theorem realExtract_thumbnail_error (env : LiveEnv) (d page live_id : String)
    (md : LiveMetadata) (tok desc : String) (cs : List LiveCall)
    (fmts : List FormatDesc) (e : ExtractError)
    (hw : env.webpage d = FetchResult.ok page)
    (hp : pridSearch page = some live_id)
    (hm : env.metadata live_id = FetchResult.ok md)
    (ht : env.token d = FetchResult.ok tok)
    (hstep : liveStreamsPart env tok md = (cs, Except.ok fmts))
    (hinfo : md.info = some desc)
    (hth : thumbnailOf md.images = Except.error e) :
    (NPOLiveIE.realExtract env d).2 = Except.error e := by
  unfold NPOLiveIE.realExtract
  rw [hw]
  dsimp only
  rw [hp]
  dsimp only
  rw [hm]
  dsimp only
  rw [ht]
  dsimp only
  rw [hstep]
  dsimp only
  rw [hinfo]
  dsimp only
  rw [hth]

/-- Claim C3: a legacy `streams` entry with a truthy URL yields exactly one
descriptor when the URL has no `.asf`; with `.asf`, the referenced document
is fetched with the ampersand-fixing transform and the descriptor's URL is
the href of the first `ENTRY/Ref` node (with the declared `formaat`
extension, default `asf`), or the entry yields no descriptor at all when
there is no such node, no href, or an empty href. -/
theorem C3_legacy_streams (env : Env) (vid : String) (stream : StreamEntry)
    (su : String) (hu : stream.url = some su) (hne : su ≠ "") :
    (hasSubstr ".asf" su = false →
      processStream env vid stream =
        ([], Except.ok [{ url := su, quality := stream.kwaliteit }])) ∧
    (∀ doc, hasSubstr ".asf" su = true → env.asx su = FetchResult.ok doc →
      (processStream env vid stream).1 = [Call.asxFetch su vid true] ∧
      (∀ vu, doc.entryRefs.head? = some (some vu) → vu ≠ "" →
        (processStream env vid stream).2 =
          Except.ok [{ url := vu, ext := some (stream.formaat.getD "asf"),
                       quality := stream.kwaliteit }]) ∧
      (doc.entryRefs.head? = none →
        (processStream env vid stream).2 = Except.ok []) ∧
      (doc.entryRefs.head? = some none →
        (processStream env vid stream).2 = Except.ok []) ∧
      (doc.entryRefs.head? = some (some "") →
        (processStream env vid stream).2 = Except.ok [])) := by
  constructor
  · intro hnasf
    unfold processStream
    rw [hu]
    dsimp only
    rw [if_neg hne, if_pos hnasf]
  · intro doc hasf hax
    have hbase : processStream env vid stream =
        (match doc.entryRefs.head? with
         | none => ([Call.asxFetch su vid true], Except.ok [])
         | some none => ([Call.asxFetch su vid true], Except.ok [])
         | some (some vu) =>
           if vu = "" then ([Call.asxFetch su vid true], Except.ok [])
           else ([Call.asxFetch su vid true],
             Except.ok [{ url := vu, ext := some (stream.formaat.getD "asf"),
                          quality := stream.kwaliteit }])) := by
      unfold processStream
      rw [hu]
      dsimp only
      rw [if_neg hne, if_neg (by simp [hasf]), hax]
    refine ⟨?_, ?_, ?_, ?_, ?_⟩
    · rw [hbase]
      cases hh : doc.entryRefs.head? with
      | none => rfl
      | some o =>
        cases o with
        | none => rfl
        | some vu =>
          dsimp only
          by_cases hvu : vu = ""
          · rw [if_pos hvu]
          · rw [if_neg hvu]
    · intro vu hh hvu
      rw [hbase, hh]
      dsimp only
      rw [if_neg hvu]
    · intro hh
      rw [hbase, hh]
    · intro hh
      rw [hbase, hh]
    · intro hh
      rw [hbase, hh]
      rfl

/-- Claim C4: in the adaptive loop, a per-item fetch failing with HTTP 404 whose
body carries a truthy `errorstring` aborts the resolution with that string as
an expected error; a 404 without one, any other HTTP failure, and any
non-HTTP failure propagate unmodified; an erroring item aborts the item loop
and the whole resolution. -/
theorem C4_404_error_mapping (env : Env) (vid : String) (num : Nat)
    (item : IdaItem) (iu : String)
    (hu : item.url = some iu) (hne : iu ≠ "") :
    (∀ e, env.streamInfo (iu ++ "&type=json") = FetchResult.httpErr 404 (some e) →
      e ≠ "" → (processIdaItem env vid num item).2 =
        Except.error (ExtractError.expected e)) ∧
    (env.streamInfo (iu ++ "&type=json") = FetchResult.httpErr 404 none →
      (processIdaItem env vid num item).2 =
        Except.error (ExtractError.http 404 none)) ∧
    (env.streamInfo (iu ++ "&type=json") = FetchResult.httpErr 404 (some "") →
      (processIdaItem env vid num item).2 =
        Except.error (ExtractError.http 404 (some ""))) ∧
    (∀ code es, env.streamInfo (iu ++ "&type=json") = FetchResult.httpErr code es →
      code ≠ 404 → (processIdaItem env vid num item).2 =
        Except.error (ExtractError.http code es)) ∧
    (env.streamInfo (iu ++ "&type=json") = FetchResult.err →
      (processIdaItem env vid num item).2 = Except.error ExtractError.plain) ∧
    (∀ e rest, (processIdaItem env vid num item).2 = Except.error e →
      (processIdaItems env vid num (item :: rest)).2 = Except.error e) ∧
    (∀ v md tok csA e,
      env.metadata v = FetchResult.ok md →
      env.token (pyOrStr md.prid v) = FetchResult.ok tok →
      adaptivePart env (pyOrStr md.prid v) tok md = (csA, Except.error e) →
      (NPOIE.getInfo env v).2 = Except.error e) := by
  refine ⟨?_, ?_, ?_, ?_, ?_, ?_, ?_⟩
  · intro e hsi hene
    simp [processIdaItem, hu, hne, hsi, hene]
  · intro hsi
    simp [processIdaItem, hu, hne, hsi]
  · intro hsi
    simp [processIdaItem, hu, hne, hsi]
  · intro code es hsi hcode
    simp [processIdaItem, hu, hne, hsi, hcode]
  · intro hsi
    simp [processIdaItem, hu, hne, hsi]
  · intro e rest h
    rw [processIdaItems]
    rcases h1 : processIdaItem env vid num item with ⟨cs, r⟩
    rw [h1] at h
    dsimp only at h
    subst h
    rfl
  · intro v md tok csA e hm htok hA
    exact (getInfo_parts env v md tok hm htok).1 csA e hA

/-- Claim C9: both resolvers take the thumbnail from the LAST element of the
metadata's `images` list; an absent `images` key gives a null thumbnail and
resolution succeeds, but a present-and-empty `images` list makes resolution
fail with an uncaught IndexError instead of succeeding without a
thumbnail. -/
theorem C9_thumbnail_last_or_crash :
    (∀ (env : Env) (v : String) (md : Metadata) (tr : List Call) (r : MediaRecord),
      env.metadata v = FetchResult.ok md →
      NPOIE.getInfo env v = (tr, Except.ok r) →
      (md.images = none → r.thumbnail = none) ∧
      (∀ l u, md.images = some l → l.getLast? = some u → r.thumbnail = u) ∧
      (md.images = some [] → False)) ∧
    (∀ (env : Env) (v : String) (md : Metadata) (tok : String)
        (csA csS : List Call) (fA fS : List FormatDesc),
      env.metadata v = FetchResult.ok md → md.images = some [] →
      env.token (pyOrStr md.prid v) = FetchResult.ok tok →
      adaptivePart env (pyOrStr md.prid v) tok md = (csA, Except.ok fA) →
      streamsPart env (pyOrStr md.prid v) md = (csS, Except.ok fS) →
      (NPOIE.getInfo env v).2 = Except.error ExtractError.pyIndexError) ∧
    (∀ (env : LiveEnv) (d page live_id : String) (md : LiveMetadata)
        (tr : List LiveCall) (r : LiveRecord),
      env.webpage d = FetchResult.ok page →
      pridSearch page = some live_id →
      env.metadata live_id = FetchResult.ok md →
      NPOLiveIE.realExtract env d = (tr, Except.ok r) →
      (md.images = none → r.thumbnail = none) ∧
      (∀ l u, md.images = some l → l.getLast? = some u → r.thumbnail = u) ∧
      (md.images = some [] → False)) ∧
    (∀ (env : LiveEnv) (d page live_id : String) (md : LiveMetadata)
        (tok desc : String) (cs : List LiveCall) (fmts : List FormatDesc),
      env.webpage d = FetchResult.ok page →
      pridSearch page = some live_id →
      env.metadata live_id = FetchResult.ok md → md.images = some [] →
      env.token d = FetchResult.ok tok →
      liveStreamsPart env tok md = (cs, Except.ok fmts) →
      md.info = some desc →
      (NPOLiveIE.realExtract env d).2 = Except.error ExtractError.pyIndexError) := by
  refine ⟨?_, ?_, ?_, ?_⟩
  · intro env v md tr r hm hrun
    obtain ⟨_, _, _, _, _, hth, _⟩ := getInfo_ok_shape env v md tr r hm hrun
    refine ⟨?_, ?_, ?_⟩
    · intro h
      rw [h] at hth
      simp [thumbnailOf] at hth
      exact hth.symm
    · intro l u hl hlast
      rw [hl] at hth
      simp [thumbnailOf, hlast] at hth
      exact hth.symm
    · intro h
      rw [h] at hth
      simp [thumbnailOf] at hth
  · intro env v md tok csA csS fA fS hm him htok hA hS
    exact (getInfo_parts env v md tok hm htok).2.2 csA fA csS fS
      ExtractError.pyIndexError hA hS (by rw [him]; rfl)
  · intro env d page live_id md tr r hw hp hm hrun
    obtain ⟨_, _, _, _, hth, _⟩ :=
      realExtract_ok_shape env d page live_id md tr r hw hp hm hrun
    refine ⟨?_, ?_, ?_⟩
    · intro h
      rw [h] at hth
      simp [thumbnailOf] at hth
      exact hth.symm
    · intro l u hl hlast
      rw [hl] at hth
      simp [thumbnailOf, hlast] at hth
      exact hth.symm
    · intro h
      rw [h] at hth
      simp [thumbnailOf] at hth
  · intro env d page live_id md tok desc cs fmts hw hp hm him ht hstep hinfo
    exact realExtract_thumbnail_error env d page live_id md tok desc cs fmts
      ExtractError.pyIndexError hw hp hm ht hstep hinfo (by rw [him]; rfl)

/-- Claim C6: the returned record's title is the primary title alone when the
sub-title is absent, empty, or equal to it, and `titel ++ ": " ++ sub`
otherwise. -/
theorem C6_title_merge (env : Env) (v : String) (md : Metadata)
    (tr : List Call) (r : MediaRecord)
    (hm : env.metadata v = FetchResult.ok md)
    (hrun : NPOIE.getInfo env v = (tr, Except.ok r)) :
    ((md.aflevering_titel = none ∨ md.aflevering_titel = some "" ∨
        md.aflevering_titel = some md.titel) → r.title = md.titel) ∧
    (∀ st, md.aflevering_titel = some st → st ≠ "" → st ≠ md.titel →
      r.title = md.titel ++ ": " ++ st) := by
  obtain ⟨_, htitle, _⟩ := getInfo_ok_shape env v md tr r hm hrun
  constructor
  · rintro (h | h | h) <;> simp [htitle, mergeTitle, h]
  · intro st hst hne hnet
    rw [htitle]
    simp [mergeTitle, hst, hne, hnet]

/-- Claim C8: when `tt888 = "ja"` the returned subtitles are exactly one Dutch
entry with extension `vtt` and the fixed templated URL built from the
(possibly prid-remapped) identifier; for any other `tt888` value, including
absence, the subtitles are empty. -/
theorem C8_subtitles (env : Env) (v : String) (md : Metadata)
    (tr : List Call) (r : MediaRecord)
    (hm : env.metadata v = FetchResult.ok md)
    (hrun : NPOIE.getInfo env v = (tr, Except.ok r)) :
    (md.tt888 = some "ja" →
      r.subtitles =
        [("nl", [{ ext := "vtt",
                   url := "http://tt888.omroep.nl/tt888/" ++ pyOrStr md.prid v }])]) ∧
    (md.tt888 ≠ some "ja" → r.subtitles = []) := by
  obtain ⟨_, _, _, _, _, _, hsub⟩ := getInfo_ok_shape env v md tr r hm hrun
  constructor
  · intro h
    rw [hsub, if_pos h]
  · intro h
    rw [hsub, if_neg h]

/-- Claim C2 (amended): a progressive descriptor appended by the adaptive loop
carries as `format_id` the regex capture of the `video/ida/<segment>` path
segment of the item URL when the capture succeeds, and NO format identifier
(`None`) when it fails — never the positional index, which the loop result
does not depend on. -/
theorem C2_format_id_amended (env : Env) (vid : String) (num num2 : Nat)
    (item : IdaItem) (iu : String) (si : StreamInfo) (vu : String)
    (hu : item.url = some iu) (hne : iu ≠ "")
    (hsi : env.streamInfo (iu ++ "&type=json") = FetchResult.ok si)
    (hec : truthyInt si.error_code = false) (hec2 : truthyInt si.errorcode = false)
    (hvu : si.url = some vu) (hvne : vu ≠ "")
    (hfam : si.family ≠ some "adaptive") :
    (processIdaItem env vid num item).2 =
      Except.ok [{ url := vu, format_id := idaSearch iu,
                   quality := some (qualitiesRank qTable (idaSearch iu)) }] ∧
    (idaSearch iu = none →
      (processIdaItem env vid num item).2 =
        Except.ok [{ url := vu, format_id := none,
                     quality := some (qualitiesRank qTable none) }]) ∧
    processIdaItem env vid num item = processIdaItem env vid num2 item := by
  have h1 : (processIdaItem env vid num item).2 =
      Except.ok [{ url := vu, format_id := idaSearch iu,
                   quality := some (qualitiesRank qTable (idaSearch iu)) }] := by
    unfold processIdaItem
    rw [hu]
    dsimp only
    rw [if_neg hne, hsi]
    dsimp only
    rw [if_neg (by simp [hec, hec2]), hvu]
    dsimp only
    rw [if_neg hvne, if_neg hfam]
  refine ⟨h1, ?_, rfl⟩
  intro hcap
  rw [h1, hcap]

theorem C1_witness :
    ((NPOIE.getInfo envC1 "POMS_WNL_853698").1.filter (fun c => c.isMetadataFetch) =
        [Call.metadataFetch "POMS_WNL_853698"]) ∧
    (∀ c ∈ (NPOIE.getInfo envC1 "POMS_WNL_853698").1,
      c.isMetadataFetch = false → c.argId = "POW_00996502") ∧
    (∀ tr r, NPOIE.getInfo envC1 "POMS_WNL_853698" = (tr, Except.ok r) →
      r.id = "POW_00996502" ∧
      (mdC1.tt888 = some "ja" →
        r.subtitles =
          [("nl", [{ ext := "vtt",
                     url := "http://tt888.omroep.nl/tt888/" ++ "POW_00996502" }])])) :=
  C1_prid_substitution envC1 "POMS_WNL_853698" "POW_00996502" mdC1
    (by decide) rfl (by decide)

/-- Counterexample to claim C2: at position 5 of the item list, with an item URL on
which the `video/ida/([^/]+)` capture fails, the produced descriptor's
`format_id` is `none` — NOT the positional index 5, contrary to the claim
that the descriptor falls back to the positional index. -/
theorem C2_counterexample :
    idaSearch "http://odi.omroep.nl/video/item?x=1" = none ∧
    (processIdaItem envC2 "VID" 5 itemC2).2 =
      Except.ok [{ url := "http://cdn.example/stream.mp4", format_id := none,
                   quality := some (-1) }] ∧
    ¬ (processIdaItem envC2 "VID" 5 itemC2).2 =
      Except.ok [{ url := "http://cdn.example/stream.mp4", format_id := some "5",
                   quality := some (-1) }] :=
  ⟨by decide, by decide, by decide⟩

theorem C2_witness :
    (processIdaItem envC2w "VID" 0 itemC2w).2 =
      Except.ok [{ url := "http://cdn.example/f.mp4",
                   format_id := idaSearch "http://odi.omroep.nl/video/ida/h264_std/x?a=1",
                   quality := some (qualitiesRank qTable
                     (idaSearch "http://odi.omroep.nl/video/ida/h264_std/x?a=1")) }] ∧
    (idaSearch "http://odi.omroep.nl/video/ida/h264_std/x?a=1" = none →
      (processIdaItem envC2w "VID" 0 itemC2w).2 =
        Except.ok [{ url := "http://cdn.example/f.mp4", format_id := none,
                     quality := some (qualitiesRank qTable none) }]) ∧
    processIdaItem envC2w "VID" 0 itemC2w = processIdaItem envC2w "VID" 7 itemC2w :=
  C2_format_id_amended envC2w "VID" 0 7 itemC2w
    "http://odi.omroep.nl/video/ida/h264_std/x?a=1" siC2w "http://cdn.example/f.mp4"
    rfl (by decide) (by decide) (by decide) (by decide) rfl (by decide) (by decide)

theorem C3_witness :
    (processStream envC3 "VID" streamC3).2 =
      Except.ok [{ url := "mms://media.omroep.nl/real.wmv", ext := some "wmv",
                   quality := some 1 }] :=
  ((C3_legacy_streams envC3 "VID" streamC3 "http://cdn.omroep.nl/media.asf"
      rfl (by decide)).2 docC3 (by decide) (by decide)).2.1
    "mms://media.omroep.nl/real.wmv" rfl (by decide)

theorem C4_witness :
    (processIdaItem envC4 "VID" 0 itemC4).2 =
      Except.error (ExtractError.expected "Dit programma is niet meer beschikbaar") :=
  (C4_404_error_mapping envC4 "VID" 0 itemC4 "http://odi.omroep.nl/i1"
      rfl (by decide)).1
    "Dit programma is niet meer beschikbaar" (by decide) (by decide)

theorem C5_witness :
    (processIdaItem envC5 "VID" 0 itemC5).2 = Except.ok [] :=
  (C5_error_code_skip envC5 "VID" 0 itemC5 "http://odi.omroep.nl/i5" siC5
      rfl (by decide) (by decide) (Or.inl (by decide))).1

theorem C6_witness :
    recC6.title = mdC6.titel ++ ": " ++ "De toekomst komt uit Afrika" :=
  (C6_title_merge envC6 "VPWON_1169289" mdC6
      [Call.metadataFetch "VPWON_1169289", Call.tokenFetch "VPWON_1169289"] recC6
      rfl (by decide)).2
    "De toekomst komt uit Afrika" rfl (by decide) (by decide)

theorem C7_witness :
    processLiveStream lenvC7 "tok" sC7 = ([], Except.ok []) ∧
    ∀ rest, processLiveStreams lenvC7 "tok" (sC7 :: rest) =
      processLiveStreams lenvC7 "tok" rest :=
  C7_smooth_streaming_skipped lenvC7 "tok" sC7 "MS" rfl (by decide)

theorem C8_witness :
    recC8.subtitles =
      [("nl", [{ ext := "vtt",
                 url := "http://tt888.omroep.nl/tt888/" ++
                   pyOrStr mdC8.prid "VPWON_1220719" }])] :=
  (C8_subtitles envC8 "VPWON_1220719" mdC8
      [Call.metadataFetch "VPWON_1220719", Call.tokenFetch "VPWON_1220719"] recC8
      rfl (by decide)).1 rfl

theorem C9_witness :
    recC9.thumbnail = some "http://images.omroep.nl/last.jpg" ∧
    (NPOIE.getInfo envC9b "VID").2 = Except.error ExtractError.pyIndexError :=
  ⟨(C9_thumbnail_last_or_crash.1 envC9 "VID" mdC9
        [Call.metadataFetch "VID", Call.tokenFetch "VID"] recC9
        rfl (by decide)).2.1
      [none, some "http://images.omroep.nl/last.jpg"]
      (some "http://images.omroep.nl/last.jpg") rfl rfl,
   C9_thumbnail_last_or_crash.2.1 envC9b "VID" mdC9b "tok" [] [] [] []
     rfl rfl rfl rfl rfl⟩

theorem C10_witness :
    (NPOLiveIE.realExtract lenvC10 "npo-1").2 =
      Except.error ExtractError.pyAttrError :=
  (C10_missing_type_aborts lenvC10 sC10 rfl).2.2 "npo-1" pageC10
    "LI_NEDERLAND1_136692" mdC10 "tok" [] (by decide) (by decide) (by decide)
    (by decide) rfl
